import Mathlib

/-!
Verification of the chessboard GUI (`chess_gui.py`): a shallow embedding of the
click-driven selection state machine, manual piece placement, FEN loading,
board clearing/resetting, the per-query engine session in `get_best_move`, and
the score-to-string conversion.  Library calls into python-chess
(`chess.Board.set_fen`, `clear`, `set_piece_at`, `remove_piece_at`,
`chess.engine.SimpleEngine`, `chess.engine.PovScore`) are embedded from the
python-chess sources they dispatch to; each such definition carries a comment
naming the Python operation it models.
-/

namespace ChessGui

/-- Piece colors; python-chess `chess.WHITE = True`, `chess.BLACK = False`. -/
inductive PColor
  | white
  | black
deriving DecidableEq

/-- The six piece types of `chess.PIECE_TYPES`. -/
inductive PieceType
  | pawn
  | knight
  | bishop
  | rook
  | queen
  | king
deriving DecidableEq

/-- A `chess.Piece`: color plus piece type. -/
structure Piece where
  color : PColor
  ptype : PieceType
deriving DecidableEq

/-- Squares use python-chess numbering: `square = file + 8 * rank`, `0 = a1`. -/
abbrev Square := Fin 64

/-- A `chess.Move`: origin, destination, optional promotion piece type.
Drops and the null move never arise in the GUI paths modelled here. -/
structure Move where
  src : Square
  dst : Square
  promo : Option PieceType
deriving DecidableEq

/-- The state of a `chess.Board` as the GUI observes it: the 64 squares
(list index = square number), the side to move, and the auxiliary FEN fields.
Castling rights are carried as the raw castling token; python-chess refines
this token into a rook-square bitboard (`_set_castling_fen`), a refinement no
GUI path observes. -/
structure Board where
  squares : List (Option Piece)
  turn : PColor
  castling : String
  epSquare : Option Nat
  halfmoveClock : Int
  fullmoveNumber : Int
deriving DecidableEq

/-- `chess.BaseBoard.piece_at` restricted to the 64 valid squares. -/
def Board.piece_at (b : Board) (sq : Square) : Option Piece :=
  b.squares.getD sq.val none

/-- `chess.Board.set_piece_at`: writes the piece, bypassing legality.
(The move stack, which the Python method also clears, is not modelled:
no GUI path reads it.) -/
def Board.set_piece_at (b : Board) (sq : Square) (p : Piece) : Board :=
  { b with squares := b.squares.set sq.val (some p) }

/-- `chess.Board.remove_piece_at`: empties the square unconditionally. -/
def Board.remove_piece_at (b : Board) (sq : Square) : Board :=
  { b with squares := b.squares.set sq.val none }

/-- `chess.Board.clear` (python-chess `Board.clear`):
sets `turn = WHITE`, clears castling rights, en-passant square and counters,
then empties every square via `clear_board`.  The side to move is *not*
preserved. -/
def Board.clear (_b : Board) : Board :=
  { squares := List.replicate 64 none
    turn := PColor.white
    castling := "-"
    epSquare := none
    halfmoveClock := 0
    fullmoveNumber := 1 }

/-- White back rank pieces in square order a..h. -/
def backRank (c : PColor) : List (Option Piece) :=
  [some ⟨c, .rook⟩, some ⟨c, .knight⟩, some ⟨c, .bishop⟩, some ⟨c, .queen⟩,
   some ⟨c, .king⟩, some ⟨c, .bishop⟩, some ⟨c, .knight⟩, some ⟨c, .rook⟩]

/-- A rank of eight pawns of one color. -/
def pawnRank (c : PColor) : List (Option Piece) :=
  List.replicate 8 (some ⟨c, .pawn⟩)

/-- The standard starting placement in square order (a1 .. h8). -/
def startingSquares : List (Option Piece) :=
  backRank .white ++ pawnRank .white ++ List.replicate 32 none ++
    pawnRank .black ++ backRank .black

/-- `chess.Board.reset`: standard starting position, White to move. -/
def Board.reset (_b : Board) : Board :=
  { squares := startingSquares
    turn := PColor.white
    castling := "KQkq"
    epSquare := none
    halfmoveClock := 0
    fullmoveNumber := 1 }

/-- ASCII whitespace recognized by Python `str.strip()` / `str.split()`.
(Non-ASCII Unicode whitespace is not modelled; the GUI dialogs feed it
keyboard input.) -/
def isPySpace (c : Char) : Bool :=
  c = ' ' || c = '\t' || c = '\n' || c = '\x0d' || c = '\x0b' || c = '\x0c'

/-- Python `str.strip()` on a character list. -/
def pyStrip (s : List Char) : List Char :=
  ((s.dropWhile isPySpace).reverse.dropWhile isPySpace).reverse

/-- Python `str.lower()`; adequate for the ASCII alphabet the GUI inspects. -/
def pyLower (s : List Char) : List Char :=
  s.map Char.toLower

/-- Python `str.split()` with no argument: split on runs of whitespace,
dropping empty fields. -/
def pySplit (s : List Char) : List (List Char) :=
  (s.splitOnP isPySpace).filter (fun t => t ≠ [])

/-- Cached best-move / evaluation display: the `best_move_info` field and the
two info labels of the GUI. -/
structure GuiState where
  board : Board
  selected : Option Square
  bestMoveInfo : Option Move
  bestMoveLabel : String
  evalLabel : String
deriving DecidableEq

/-- The label texts the GUI writes when it invalidates the cached display. -/
def dashBest : String := "Best move: —"

/-- The placeholder evaluation label. -/
def dashEval : String := "Eval: —"

/-- Lines 197-199 of `chess_gui.py`: drop the cached best move and reset both
info labels to their placeholder dashes. -/
def invalidateCache (st : GuiState) : GuiState :=
  { st with bestMoveInfo := none, bestMoveLabel := dashBest, evalLabel := dashEval }

/-- `reset_board` (lines 202-208): reset the board, clear the selection,
invalidate the cached display. -/
def reset_board (st : GuiState) : GuiState :=
  { board := st.board.reset
    selected := none
    bestMoveInfo := none
    bestMoveLabel := dashBest
    evalLabel := dashEval }

/-- `clear_pieces` (lines 210-216): `board.clear()` (python-chess empties the
board *and* sets the side to move to White), clear the selection, invalidate
the cached display. -/
def clear_pieces (st : GuiState) : GuiState :=
  { board := st.board.clear
    selected := none
    bestMoveInfo := none
    bestMoveLabel := dashBest
    evalLabel := dashEval }

/-- `flip_side` (lines 218-221): toggle the turn flag only. -/
def flip_side (st : GuiState) : GuiState :=
  { st with board := { st.board with
      turn := match st.board.turn with
        | .white => .black
        | .black => .white } }

/-- Maps a lowercase FEN piece letter to its piece type
(`chess.PIECE_SYMBOLS`). -/
def pieceTypeOfChar (c : Char) : Option PieceType :=
  if c = 'p' then some .pawn
  else if c = 'n' then some .knight
  else if c = 'b' then some .bishop
  else if c = 'r' then some .rook
  else if c = 'q' then some .queen
  else if c = 'k' then some .king
  else none

/-- `right_click_place` (lines 172-200).  `choice` is the
`simpledialog.askstring` result: `none` models the cancelled dialog; Python
treats the empty string as falsy too, so both return before touching any
state.  A recognized tag (first char `w`/`b`, second a piece letter, trailing
characters ignored) places the piece; the literal `remove` empties the square;
anything else shows a message box and returns before the cache invalidation
at lines 197-199. -/
def right_click_place (st : GuiState) (sq : Square) (choice : Option String) : GuiState :=
  match choice with
  | none => st
  | some s =>
    if s = "" then st
    else
      let c := pyLower (pyStrip s.data)
      if c = "remove".data then
        invalidateCache { st with board := st.board.remove_piece_at sq }
      else
        match c with
        | c0 :: c1 :: _ =>
          if (c0 = 'w' || c0 = 'b') && (c1 = 'p' || c1 = 'n' || c1 = 'b' ||
              c1 = 'r' || c1 = 'q' || c1 = 'k') then
            let color : PColor := if c0 = 'w' then .white else .black
            match pieceTypeOfChar c1 with
            | some pt =>
                invalidateCache { st with board := st.board.set_piece_at sq ⟨color, pt⟩ }
            | none => st
          else st
        | _ => st

/-- The fixed promotion priority the click handler tries: the loop
`for promo in ['q','r','b','n']` at line 146. -/
def promoOrder : List PieceType := [.queen, .rook, .bishop, .knight]

/-- Lines 163-168: invalid destination — reselect if the clicked square is
occupied, otherwise drop the selection. -/
def fallbackReselect (st : GuiState) (sq : Square) : GuiState :=
  match st.board.piece_at sq with
  | some _ => { st with selected := some sq }
  | none => { st with selected := none }

/-- `on_square_click` (lines 127-170).  `legal` is the Rules Oracle's
membership test of `board.legal_moves` for the current board, and `push` its
move application, both external collaborators.  Returns `none` exactly when
the handler raises: `chess.Move.from_uci` rejects a UCI string whose origin
equals its destination, which happens before any state is written. -/
def on_square_click (legal : Move → Bool) (push : Board → Move → Board)
    (st : GuiState) (sq : Square) : Option GuiState :=
  match st.selected with
  | none =>
    match st.board.piece_at sq with
    | some _ => some { st with selected := some sq }
    | none => some { st with selected := none }
  | some origin =>
    if origin = sq then none
    else
      let u : Move := ⟨origin, sq, none⟩
      let move : Option Move :=
        if legal u then some u
        else
          match promoOrder.find? (fun p => legal ⟨origin, sq, some p⟩) with
          | some p => some ⟨origin, sq, some p⟩
          | none => none
      match move with
      | some m =>
        if legal m then
          some { board := push st.board m
                 selected := none
                 bestMoveInfo := none
                 bestMoveLabel := dashBest
                 evalLabel := dashEval }
        else some (fallbackReselect st sq)
      | none => some (fallbackReselect st sq)

/-- Scan state of the row-validation loop in python-chess
`BaseBoard._set_board_fen`: running field sum plus the
`previous_was_digit` / `previous_was_piece` flags; `ok` records whether a
`raise` has fired. -/
structure RowScan where
  fieldSum : Nat
  prevDigit : Bool
  prevPiece : Bool
  ok : Bool
deriving DecidableEq

/-- One step of the `for c in row` validation loop of `_set_board_fen`. -/
def rowScanStep (st : RowScan) (c : Char) : RowScan :=
  if !st.ok then st
  else if '1' ≤ c && c ≤ '8' then
    if st.prevDigit then { st with ok := false }
    else ⟨st.fieldSum + (c.toNat - 48), true, false, true⟩
  else if c = '~' then
    if !st.prevPiece then { st with ok := false }
    else { st with prevPiece := false }
  else
    match pieceTypeOfChar c.toLower with
    | some _ => ⟨st.fieldSum + 1, false, true, true⟩
    | none => { st with ok := false }

/-- A FEN row is valid when the scan raises nothing and the field sum is 8. -/
def validRow (row : List Char) : Bool :=
  let r := row.foldl rowScanStep ⟨0, false, false, true⟩
  r.ok && r.fieldSum = 8

/-- `chess.Piece.from_symbol`: uppercase letters are white pieces. -/
def pieceOfFenChar (c : Char) : Option Piece :=
  match pieceTypeOfChar c.toLower with
  | some pt => some ⟨if c.isUpper then .white else .black, pt⟩
  | none => none

/-- Expands one validated FEN row into its eight squares, in file order.
The promoted-piece marker `~` only sets a flag python-chess keeps for
variant play; it contributes no square. -/
def expandRow (row : List Char) : List (Option Piece) :=
  row.foldl
    (fun acc c =>
      if '1' ≤ c && c ≤ '8' then acc ++ List.replicate (c.toNat - 48) none
      else if c = '~' then acc
      else
        match pieceOfFenChar c with
        | some p => acc ++ [some p]
        | none => acc)
    []

/-- python-chess `BaseBoard._set_board_fen`: validates the whole board part
(raising, i.e. returning the *unchanged* board with an error, before any
square is written) and only then clears the board and places the pieces.
Rows arrive rank 8 first, so the square-ordered list concatenates the
reversed rows. -/
def set_board_fen (b : Board) (s : List Char) : Board × Option String :=
  let s := pyStrip s
  if s.contains ' ' then
    (b, some "expected position part of fen, got multiple parts")
  else
    let rows := s.splitOn '/'
    if rows.length ≠ 8 then (b, some "expected 8 rows in position part of fen")
    else if rows.all validRow then
      ({ b with squares := (rows.reverse.map expandRow).flatten }, none)
    else (b, some "invalid position part of fen")

/-- The turn token of `chess.Board.set_fen`: `w` or `b`, anything else raises. -/
def parseTurn (t : List Char) : Except String PColor :=
  if t = ['w'] then .ok .white
  else if t = ['b'] then .ok .black
  else .error "expected w or b for turn part of fen"

/-- Characters the first class of `chess.FEN_CASTLING_REGEX` accepts. -/
def castlingUpper : List Char := ['K', 'Q', 'A', 'B', 'C', 'D', 'E', 'F', 'G', 'H']

/-- Characters the second class of `chess.FEN_CASTLING_REGEX` accepts. -/
def castlingLower : List Char := ['k', 'q', 'a', 'b', 'c', 'd', 'e', 'f', 'g', 'h']

/-- `chess.FEN_CASTLING_REGEX`: a dash, or up to two uppercase flags followed
by up to two lowercase flags (the two character classes are disjoint, so the
greedy match is the maximal uppercase one). -/
def validCastling (s : List Char) : Bool :=
  s = ['-'] ||
    (let up := s.takeWhile (fun c => castlingUpper.contains c)
     let low := s.drop up.length
     decide (up.length ≤ 2) && decide (low.length ≤ 2) &&
       low.all (fun c => castlingLower.contains c))

/-- `chess.SQUARE_NAMES.index`: file letter a-h and rank digit 1-8, giving
`file + 8 * rank`. -/
def parseSquareName (s : List Char) : Option Nat :=
  match s with
  | [f, r] =>
    if 'a' ≤ f && f ≤ 'h' && '1' ≤ r && r ≤ '8' then
      some ((f.toNat - 97) + 8 * (r.toNat - 49))
    else none
  | _ => none

/-- Decimal digits to a natural number. -/
def digitsToNat (ds : List Char) : Nat :=
  ds.foldl (fun acc c => 10 * acc + (c.toNat - 48)) 0

/-- Python `int(str)`: optional surrounding whitespace, optional sign, then
decimal digits.  (Underscore digit separators are not modelled.) -/
def pyInt (s : List Char) : Option Int :=
  let s := pyStrip s
  match s with
  | '-' :: ds =>
    if ds ≠ [] && ds.all Char.isDigit then some (-(digitsToNat ds : Int)) else none
  | '+' :: ds =>
    if ds ≠ [] && ds.all Char.isDigit then some (digitsToNat ds : Int) else none
  | ds =>
    if ds ≠ [] && ds.all Char.isDigit then some (digitsToNat ds : Int) else none

/-- The five FEN fields after the board part, once validated. -/
structure FenFields where
  turn : PColor
  castlingPart : List Char
  ep : Option Nat
  halfmove : Int
  fullmove : Int
deriving DecidableEq

/-- The field-popping phase of `chess.Board.set_fen`: turn, castling,
en passant, half-move clock, full-move number, each defaulted when absent and
validated when present, with leftover parts an error.  All of this precedes
any mutation in the Python source. -/
def parseFenTail (rest : List (List Char)) : Except String FenFields := do
  let turn ← match rest.head? with
    | none => pure PColor.white
    | some t => parseTurn t
  let r1 := rest.tail
  let castlingPart ← match r1.head? with
    | none => pure ['-']
    | some cp =>
      if validCastling cp then pure cp
      else Except.error "invalid castling part in fen"
  let r2 := r1.tail
  let ep ← match r2.head? with
    | none => pure (none : Option Nat)
    | some e =>
      if e = ['-'] then pure none
      else
        match parseSquareName e with
        | some n => pure (some n)
        | none => Except.error "invalid en passant part in fen"
  let r3 := r2.tail
  let halfmove ← match r3.head? with
    | none => pure (0 : Int)
    | some h =>
      match pyInt h with
      | some n =>
        if n < 0 then Except.error "half-move clock cannot be negative"
        else pure n
      | none => Except.error "invalid half-move clock in fen"
  let r4 := r3.tail
  let fullmove ← match r4.head? with
    | none => pure (1 : Int)
    | some f =>
      match pyInt f with
      | some n =>
        if n < 0 then Except.error "fullmove number cannot be negative"
        else pure (max n 1)
      | none => Except.error "invalid fullmove number in fen"
  let r5 := r4.tail
  if r5 ≠ [] then Except.error "fen string has more parts than expected"
  else pure ⟨turn, castlingPart, ep, halfmove, fullmove⟩

/-- `chess.Board.set_fen`: split the string, validate every field, then (and
only then) write the board part and apply the fields.  The second component
is the raised message, if any; every raise happens before the first mutation,
so the returned board is the input board on each error path. -/
def set_fen (b : Board) (fen : String) : Board × Option String :=
  match pySplit fen.data with
  | [] => (b, some "empty fen")
  | boardPart :: rest =>
    match parseFenTail rest with
    | .error e => (b, some e)
    | .ok f =>
      match set_board_fen b boardPart with
      | (b1, some e) => (b1, some e)
      | (b1, none) =>
        ({ b1 with
            turn := f.turn
            castling := ⟨f.castlingPart⟩
            epSquare := f.ep
            halfmoveClock := f.halfmove
            fullmoveNumber := f.fullmove }, none)

/-- `load_fen_dialog` (lines 223-230).  `fen` is the `askstring` result;
`none` and the empty string are falsy, so nothing happens.  Otherwise
`board.set_fen` runs; a raise is caught and shown in an error box (the second
component), and the board keeps whatever state `set_fen` left. -/
def load_fen_dialog (st : GuiState) (fen : Option String) : GuiState × Option String :=
  match fen with
  | none => (st, none)
  | some f =>
    if f = "" then (st, none)
    else
      let r := set_fen st.board f
      ({ st with board := r.1 }, r.2)

/-- A `chess.engine.Score`: centipawns (`Cp`) or mate distance (`Mate`). -/
inductive Score
  | cp (v : Int)
  | mate (n : Int)
deriving DecidableEq

/-- `Score.__neg__`: negates the centipawn value or the mate distance. -/
def Score.neg : Score → Score
  | .cp v => .cp (-v)
  | .mate n => .mate (-n)

/-- `Score.score(mate_score=...)`: the centipawn value, or the mate distance
folded into the given mate score. -/
def Score.scoreWithMate (s : Score) (mateScore : Int) : Int :=
  match s with
  | .cp v => v
  | .mate n => if 0 < n then mateScore - n else -mateScore - n

/-- `chess.engine.PovScore`: a relative score plus the point of view it is
relative to (the side to move of the analysed position). -/
structure PovScore where
  relative : Score
  turn : PColor
deriving DecidableEq

/-- `PovScore.white()` (via `PovScore.pov`): un-inverts the relative score
when the point of view is Black. -/
def PovScore.white (s : PovScore) : Score :=
  if s.turn = .white then s.relative else s.relative.neg

/-- `PovScore.is_mate()`. -/
def PovScore.is_mate (s : PovScore) : Bool :=
  match s.relative with
  | .mate _ => true
  | .cp _ => false

/-- The attribute lookup `score.mate()` performed at line 268.
`chess.engine.PovScore` defines `relative`, `turn`, `white()`, `black()`,
`pov()`, `is_mate()` and `wdl()` — but no `mate()` method (that lives on
`Score`), so the lookup raises `AttributeError` for every `PovScore`;
the enclosing `except Exception` at line 275 swallows it. -/
def povScoreMateAttr (_s : PovScore) : Option Int := none

/-- Two decimal digits with a leading zero. -/
def twoDigits (n : Nat) : String :=
  (if n < 10 then "0" else "") ++ toString n

/-- The f-string `f"{cp/100:.2f}"` at line 272 on an integer centipawn value:
`cp/100` has an exact two-decimal representation, the nearest double is within
`2^-52 · |cp| / 100` of it, far closer than the 0.005 distance to any rounding
boundary, so the two-decimal format prints exactly `cp/100` with its sign. -/
def formatCp (cp : Int) : String :=
  (if cp < 0 then "-" else "") ++ toString (cp.natAbs / 100) ++ "." ++
    twoDigits (cp.natAbs % 100)

/-- The score-conversion block, lines 262-276.  The argument is the outcome
of the evaluation request: `none` when `engine.analyse` raises, otherwise
`info.get("score")`.  A mate score reaches `f"Mate in {score.mate()}"`, whose
attribute lookup raises (see `povScoreMateAttr`) and is swallowed by the
`except Exception` of the same block; every failure yields the dash. -/
def scoreDisplay (analyseOutcome : Option (Option PovScore)) : String :=
  match analyseOutcome with
  | none => "—"
  | some none => "—"
  | some (some score) =>
    if score.is_mate then
      match povScoreMateAttr score with
      | some n => "Mate in " ++ toString n
      | none => "—"
    else
      formatCp ((score.white).scoreWithMate 100000)

/-- The configured default thinking time, `ENGINE_TIME = 0.25`. -/
def ENGINE_TIME : ℚ := 1 / 4

/-- One run of the engine-query environment: what the spawned process, the
Tk time entry and the user answer do during a single `get_best_move` call. -/
structure EngineEnv where
  /-- `chess.engine.SimpleEngine.popen_uci` succeeds. -/
  spawnOk : Bool
  /-- `self.time_var.get()` at line 251 raises `tkinter.TclError` because the
  entry text is not a float.  Line 251 runs after the spawn and before the
  `try` at line 252. -/
  timeReadRaises : Bool
  /-- The value read when the entry does parse. -/
  timeValue : ℚ
  /-- `engine.play` raises. -/
  playRaises : Bool
  /-- `result.move` when `engine.play` returns; `none` on a position with no
  legal moves (checkmate or stalemate). -/
  playMove : Option Move
  /-- Outcome of the evaluation request: `none` when `engine.analyse` raises,
  otherwise `info.get("score")`. -/
  analyseOutcome : Option (Option PovScore)
  /-- `board.san(best)` result; `none` when it raises (caught at line 282). -/
  sanResult : Option String
  /-- The `messagebox.askyesno` confirmation at line 293. -/
  applyIt : Bool
deriving DecidableEq

/-- Observable lifecycle events of the engine process: a successful
`popen_uci`, and a successful `quit` handshake on a live process.  A `quit`
on an already-terminated engine raises `EngineTerminatedError` instead of
producing an event. -/
inductive EngineEvent
  | spawn
  | terminate
deriving DecidableEq

/-- How `get_best_move` returns: early return after the spawn-failure error
box, an exception escaping the handler, the no-legal-move information box, or
normal completion. -/
inductive GBMExit
  | engineUnavailable
  | uncaughtError
  | noLegalMove
  | completed
deriving DecidableEq

/-- Result of one `get_best_move` call: how it exited, the GUI state it left,
and the engine-process lifecycle events it produced. -/
structure GBMResult where
  exit : GBMExit
  state : GuiState
  events : List EngineEvent
deriving DecidableEq

/-- Square name in coordinate (UCI) form, e.g. `e2`. -/
def squareName (sq : Square) : String :=
  ⟨[Char.ofNat (97 + sq.val % 8), Char.ofNat (49 + sq.val / 8)]⟩

/-- `Move.uci()`: origin, destination, optional promotion letter. -/
def uciOfMove (m : Move) : String :=
  squareName m.src ++ squareName m.dst ++
    (match m.promo with
     | some .queen => "q"
     | some .rook => "r"
     | some .bishop => "b"
     | some .knight => "n"
     | some .king => "k"
     | some .pawn => "p"
     | none => "")

/-- `get_best_move` (lines 232-301).  `push` is the Rules Oracle's move
application.  Control flow of the source:
spawn (line 242, early return on failure); the time-budget read at line 251,
which runs *between* the spawn and the `try`/`finally`, so a `TclError` there
escapes with the process still alive; then inside `try`: `engine.play`
(a raise reaches `finally`, which quits the live engine and re-raises);
the no-move path quits explicitly and returns (the `finally` quit then raises
on the dead engine and is caught); otherwise the evaluation block
(`scoreDisplay`), the SAN fallback, both labels, the cache, the confirmation
dialog and the optional `board.push`, with `finally` quitting the live
engine. -/
def get_best_move (push : Board → Move → Board) (env : EngineEnv)
    (st : GuiState) : GBMResult :=
  if !env.spawnOk then
    ⟨.engineUnavailable, st, []⟩
  else if env.timeReadRaises then
    ⟨.uncaughtError, st, [.spawn]⟩
  else
    let _t : ℚ := if 0 < env.timeValue then env.timeValue else ENGINE_TIME
    if env.playRaises then
      ⟨.uncaughtError, st, [.spawn, .terminate]⟩
    else
      match env.playMove with
      | none => ⟨.noLegalMove, st, [.spawn, .terminate]⟩
      | some best =>
        let val := scoreDisplay env.analyseOutcome
        let san := env.sanResult.getD "—"
        let st1 : GuiState :=
          { st with
              bestMoveLabel := "Best move: " ++ san ++ "  (" ++ uciOfMove best ++ ")"
              evalLabel := "Eval: " ++ val
              bestMoveInfo := some best }
        let st2 := if env.applyIt then { st1 with board := push st1.board best } else st1
        ⟨.completed, st2, [.spawn, .terminate]⟩

/-! ## Fixtures and helper lemmas -/

/-- The GUI's initial state: `chess.Board()` with nothing selected and the
placeholder labels. -/
def idleStart : GuiState :=
  { board := ⟨startingSquares, .white, "KQkq", none, 0, 1⟩
    selected := none
    bestMoveInfo := none
    bestMoveLabel := dashBest
    evalLabel := dashEval }

/-- The square e2 in python-chess numbering. -/
def sqE2 : Square := ⟨12, by decide⟩

/-- The square e4 in python-chess numbering. -/
def sqE4 : Square := ⟨28, by decide⟩

/-- The initial position with e2 selected. -/
def selectedState : GuiState :=
  { board := ⟨startingSquares, .white, "KQkq", none, 0, 1⟩
    selected := some sqE2
    bestMoveInfo := none
    bestMoveLabel := dashBest
    evalLabel := dashEval }

/-- On every error path of `set_board_fen` the board is returned unchanged:
the Python original validates the whole board part before clearing a single
square. -/
theorem set_board_fen_error (b : Board) (s : List Char) :
    (set_board_fen b s).2.isSome = true → (set_board_fen b s).1 = b := by
  simp only [set_board_fen]
  split
  · intro _; rfl
  · split
    · intro _; rfl
    · split
      · intro h; simp at h
      · intro _; rfl

/-- On every error path of `set_fen` the board is returned unchanged: every
`raise` of the Python original precedes the first field assignment. -/
theorem set_fen_error (b : Board) (fen : String) :
    (set_fen b fen).2.isSome = true → (set_fen b fen).1 = b := by
  simp only [set_fen]
  split
  · intro _; rfl
  · rename_i boardPart rest heq0
    split
    · intro _; rfl
    · rename_i f heqf
      split
      · rename_i b1 e heq
        intro _
        have h2 : (set_board_fen b boardPart).2.isSome = true := by rw [heq]; rfl
        have h1 := set_board_fen_error b boardPart h2
        rw [heq] at h1
        exact h1
      · intro h; simp at h

/-- The piece a recognized tag pair denotes: first character chooses the
color, second the piece type (here already resolved to `pt`). -/
def tagPiece (c0 : Char) (pt : PieceType) : Piece :=
  ⟨if c0 = 'w' then PColor.white else PColor.black, pt⟩

/-- A recognized placement tag (first normalized character a color letter,
second a piece letter) places exactly that piece and invalidates the cached
display; trailing characters are ignored. -/
theorem right_click_place_accepted (st : GuiState) (sq : Square) (s : String)
    (c0 c1 : Char) (rest : List Char) (pt : PieceType)
    (hnorm : pyLower (pyStrip s.data) = c0 :: c1 :: rest)
    (hc0 : c0 = 'w' ∨ c0 = 'b')
    (hc1 : pieceTypeOfChar c1 = some pt) :
    right_click_place st sq (some s) =
      invalidateCache { st with board := st.board.set_piece_at sq (tagPiece c0 pt) } := by
  have hs : s ≠ "" := by
    intro h
    subst h
    rw [show pyLower (pyStrip ("" : String).data) = [] from rfl] at hnorm
    exact List.noConfusion hnorm
  have hrem : (c0 :: c1 :: rest) ≠ "remove".data := by
    rcases hc0 with h | h <;> subst h <;> intro hco <;>
      exact absurd (List.head_eq_of_cons_eq hco) (by decide)
  have hc0b : (c0 = 'w' || c0 = 'b') = true := by
    rcases hc0 with h | h <;> simp [h]
  have hc1b : (c1 = 'p' || c1 = 'n' || c1 = 'b' || c1 = 'r' || c1 = 'q' || c1 = 'k') = true := by
    unfold pieceTypeOfChar at hc1
    repeat' split at hc1
    all_goals simp_all
  simp only [right_click_place, if_neg hs, hnorm, if_neg hrem, hc0b, hc1b,
    Bool.and_self, if_true, hc1]
  rfl


/-! ## Claims -/

/-- Claim C1 (code bug).  The claim demands that whenever the engine process
is spawned it is terminated before `get_best_move` returns, on every exit
path including an exception while reading the time-budget input after the
spawn.  The code violates this: line 251 (`self.time_var.get()`) runs after
the spawn and before the `try`/`finally`, so when the time entry holds text
that is not a float the `TclError` escapes with the process spawned and never
terminated.  This theorem evaluates the model at that failing input: exactly
one spawn event, zero terminate events. -/
theorem c1_engine_leak_on_time_read_error :
    (get_best_move (fun b _ => b) ⟨true, true, 1 / 4, false, none, none, none, false⟩
        idleStart).events = [EngineEvent.spawn] ∧
    (get_best_move (fun b _ => b) ⟨true, true, 1 / 4, false, none, none, none, false⟩
        idleStart).events.count EngineEvent.terminate = 0 ∧
    (get_best_move (fun b _ => b) ⟨true, true, 1 / 4, false, none, none, none, false⟩
        idleStart).exit = GBMExit.uncaughtError := by
  exact ⟨rfl, rfl, rfl⟩

/-- Claim C2.  On a position with no legal moves (the engine double returns
no move) and a positive time budget, `get_best_move` exits with the
no-legal-move notice, and over the whole call the engine process is spawned
exactly once and terminated exactly once (the inner `engine.quit()` performs
the termination; the later `finally` quit raises on the dead engine and is
swallowed). -/
theorem c2_no_legal_move_spawn_terminate_once (push : Board → Move → Board)
    (env : EngineEnv) (st : GuiState)
    (hs : env.spawnOk = true) (ht : env.timeReadRaises = false)
    (_hpos : 0 < env.timeValue) (hp : env.playRaises = false)
    (hm : env.playMove = none) :
    (get_best_move push env st).exit = GBMExit.noLegalMove ∧
    (get_best_move push env st).events.count EngineEvent.spawn = 1 ∧
    (get_best_move push env st).events.count EngineEvent.terminate = 1 := by
  simp only [get_best_move, hs, ht, hp, hm, Bool.not_true, Bool.false_eq_true,
    if_false]
  refine ⟨?_, ?_, ?_⟩ <;> simp [List.count_cons]

/-- Witness for C2 at a concrete environment and the GUI's initial state. -/
theorem c2_no_legal_move_witness :
    (get_best_move (fun b _ => b) ⟨true, false, 1 / 4, false, none, none, none, false⟩
        idleStart).exit = GBMExit.noLegalMove ∧
    (get_best_move (fun b _ => b) ⟨true, false, 1 / 4, false, none, none, none, false⟩
        idleStart).events.count EngineEvent.spawn = 1 ∧
    (get_best_move (fun b _ => b) ⟨true, false, 1 / 4, false, none, none, none, false⟩
        idleStart).events.count EngineEvent.terminate = 1 :=
  c2_no_legal_move_spawn_terminate_once (fun b _ => b)
    ⟨true, false, 1 / 4, false, none, none, none, false⟩ idleStart rfl rfl
    (by norm_num) rfl rfl

/-- Claim C3 counterexample.  The claim says a successful FEN load clears the
selection.  It does not: `load_fen_dialog` (lines 223-230) never touches
`selected_square`.  Here a load succeeds (no error raised) yet the selection
is still e2. -/
theorem c3_load_does_not_clear_selection_cex :
    (load_fen_dialog selectedState (some "4k3/8/8/8/8/8/8/4K3 w - - 0 1")).2 = none ∧
    (load_fen_dialog selectedState (some "4k3/8/8/8/8/8/8/4K3 w - - 0 1")).1.selected =
      some sqE2 := by
  constructor
  · rfl
  · rfl

/-- Claim C3, amended.  The selection is cleared by `reset_board` and
`clear_pieces` (and by a completed move or an invalid-destination click in
the click handler), but a successful FEN load and the manual
placement/removal dialog leave the selection exactly as it was. -/
theorem c3_selection_clearing_amended (st : GuiState) (sq : Square)
    (choice fen : Option String) :
    (reset_board st).selected = none ∧
    (clear_pieces st).selected = none ∧
    (load_fen_dialog st fen).1.selected = st.selected ∧
    (right_click_place st sq choice).selected = st.selected := by
  refine ⟨rfl, rfl, ?_, ?_⟩
  · cases fen with
    | none => rfl
    | some f =>
      simp only [load_fen_dialog]
      split
      · rfl
      · rfl
  · cases choice with
    | none => rfl
    | some s =>
      simp only [right_click_place]
      split
      · rfl
      · split
        · rfl
        · split
          · split
            · split
              · rfl
              · rfl
            · rfl
          · rfl

/-- Claim C4.  For every malformed FEN string, the load fails with an
error notice and leaves the prior position byte-for-byte unchanged —
`chess.Board.set_fen` validates every field before its first assignment, so
a raise can never leave a partial write.  (The empty string is treated as a
cancelled dialog and never reaches the parser, hence the guard on the
surfaced error.) -/
theorem c4_malformed_fen_atomic (st : GuiState) (fen : String) (e : String)
    (h : (set_fen st.board fen).2 = some e) :
    (load_fen_dialog st (some fen)).1 = st ∧
    (fen ≠ "" → (load_fen_dialog st (some fen)).2 = some e) := by
  have hb : (set_fen st.board fen).1 = st.board :=
    set_fen_error st.board fen (by rw [h]; rfl)
  by_cases hf : fen = ""
  · subst hf
    exact ⟨rfl, fun hne => absurd rfl hne⟩
  · simp only [load_fen_dialog, if_neg hf]
    constructor
    · show ({ st with board := (set_fen st.board fen).1 } : GuiState) = st
      rw [hb]
    · intro _
      exact h

/-- Witness for C4: loading `not-a-fen` over the initial position. -/
theorem c4_malformed_fen_atomic_witness :
    (set_fen idleStart.board "not-a-fen").2 =
      some "expected 8 rows in position part of fen" ∧
    ((load_fen_dialog idleStart (some "not-a-fen")).1 = idleStart ∧
      ("not-a-fen" ≠ "" → (load_fen_dialog idleStart (some "not-a-fen")).2 =
        some "expected 8 rows in position part of fen")) :=
  ⟨by decide, c4_malformed_fen_atomic idleStart "not-a-fen" _ (by decide)⟩

/-- Claim C5 counterexample.  The claim says `clear()` preserves the side to
move.  python-chess `Board.clear` sets the side to move to White, so clearing
a board where Black is to move flips the turn. -/
theorem c5_clear_resets_turn_cex :
    (clear_pieces
        { board := ⟨List.replicate 64 none, .black, "-", none, 0, 1⟩
          selected := none
          bestMoveInfo := none
          bestMoveLabel := dashBest
          evalLabel := dashEval }).board.turn ≠ PColor.black := by
  decide

/-- Claim C5, amended.  `clear_pieces` empties every square and resets the
side to move to White (the turn is preserved only when it was already
White). -/
theorem c5_clear_amended (st : GuiState) :
    (clear_pieces st).board.squares = List.replicate 64 none ∧
    (clear_pieces st).board.turn = PColor.white := by
  exact ⟨rfl, rfl⟩

/-- Claim C6.  With origin selected and the direct move illegal, the click
handler commits the first legal promotion in the fixed order queen, rook,
bishop, knight (here given as the `find?` over `promoOrder` returning `p`),
clears the selection and the cached display — and whenever the queen
promotion is legal, the committed promotion is the queen. -/
theorem c6_promotion_priority (legal : Move → Bool) (push : Board → Move → Board)
    (st : GuiState) (origin sq : Square) (p : PieceType)
    (hsel : st.selected = some origin)
    (hne : origin ≠ sq)
    (hdir : legal ⟨origin, sq, none⟩ = false)
    (hfind : promoOrder.find? (fun q => legal ⟨origin, sq, some q⟩) = some p) :
    on_square_click legal push st sq =
      some { board := push st.board ⟨origin, sq, some p⟩
             selected := none
             bestMoveInfo := none
             bestMoveLabel := dashBest
             evalLabel := dashEval } ∧
    (legal ⟨origin, sq, some PieceType.queen⟩ = true → p = PieceType.queen) := by
  have hlegal : legal ⟨origin, sq, some p⟩ = true := by
    have h := List.find?_some hfind
    simpa using h
  constructor
  · simp only [on_square_click, hsel, if_neg hne, hdir, Bool.false_eq_true,
      if_false, hfind, hlegal, if_true]
  · intro hq
    have hqfind : promoOrder.find? (fun q => legal ⟨origin, sq, some q⟩) =
        some PieceType.queen := by
      simp only [promoOrder, List.find?_cons, hq]
    rw [hqfind] at hfind
    exact (Option.some_inj.mp hfind).symm

/-- Witness legality oracle for C6: exactly the promotion-augmented moves are
legal. -/
def witLegal : Move → Bool := fun m => m.promo.isSome

/-- Witness move application for C6/C8: the Rules Oracle double that leaves
the board unchanged. -/
def witPush : Board → Move → Board := fun b _ => b

/-- Witness for C6: from the selected e2, clicking e4 with no legal direct
move and all promotions legal commits the queen promotion. -/
theorem c6_promotion_priority_witness :
    selectedState.selected = some sqE2 ∧
    sqE2 ≠ sqE4 ∧
    witLegal ⟨sqE2, sqE4, none⟩ = false ∧
    promoOrder.find? (fun q => witLegal ⟨sqE2, sqE4, some q⟩) = some PieceType.queen ∧
    (on_square_click witLegal witPush selectedState sqE4 =
        some { board := witPush selectedState.board ⟨sqE2, sqE4, some PieceType.queen⟩
               selected := none
               bestMoveInfo := none
               bestMoveLabel := dashBest
               evalLabel := dashEval } ∧
      (witLegal ⟨sqE2, sqE4, some PieceType.queen⟩ = true →
        PieceType.queen = PieceType.queen)) :=
  ⟨rfl, by decide, rfl, by decide,
    c6_promotion_priority witLegal witPush selectedState sqE2 sqE4 PieceType.queen
      rfl (by decide) rfl (by decide)⟩

/-- Claim C7 (code bug).  The claim states `display(MateIn(3)) = "Mate in 3"`,
`display(Centipawn(-150)) = "-1.50"`, `display(Unknown) = "—"`, and that a
score-parse failure never propagates.  The centipawn and unknown clauses hold,
but a mate score also displays the dash: `f"Mate in {score.mate()}"` calls
`mate()` on a `chess.engine.PovScore`, which has no such method, and the
`AttributeError` is swallowed by the bare `except`, leaving the dash. -/
theorem c7_mate_score_displays_dash :
    scoreDisplay (some (some ⟨Score.mate 3, PColor.white⟩)) = "—" ∧
    "—" ≠ "Mate in 3" ∧
    scoreDisplay (some (some ⟨Score.cp (-150), PColor.white⟩)) = "-1.50" ∧
    scoreDisplay (some none) = "—" ∧
    scoreDisplay none = "—" := by
  exact ⟨rfl, by decide, by decide, rfl, rfl⟩

/-- Claim C8.  When the engine query succeeds with a best move, the handler
asks for confirmation; an affirmative answer pushes the returned move onto
the position, and a declined one leaves the position untouched by the whole
query. -/
theorem c8_apply_confirmation (push : Board → Move → Board) (env : EngineEnv)
    (st : GuiState) (m : Move)
    (hs : env.spawnOk = true) (ht : env.timeReadRaises = false)
    (hp : env.playRaises = false) (hm : env.playMove = some m) :
    (env.applyIt = true →
      (get_best_move push env st).state.board = push st.board m) ∧
    (env.applyIt = false →
      (get_best_move push env st).state.board = st.board) := by
  simp only [get_best_move, hs, ht, hp, hm, Bool.not_true, Bool.false_eq_true,
    if_false]
  constructor
  · intro ha
    simp [ha]
  · intro ha
    simp [ha]

/-- Witness for C8: an affirmed query over the initial state. -/
theorem c8_apply_confirmation_witness :
    ((⟨true, false, 1 / 4, false, some ⟨sqE2, sqE4, none⟩, none, none, true⟩ :
        EngineEnv).applyIt = true →
      (get_best_move witPush
          ⟨true, false, 1 / 4, false, some ⟨sqE2, sqE4, none⟩, none, none, true⟩
          idleStart).state.board = witPush idleStart.board ⟨sqE2, sqE4, none⟩) ∧
    ((⟨true, false, 1 / 4, false, some ⟨sqE2, sqE4, none⟩, none, none, true⟩ :
        EngineEnv).applyIt = false →
      (get_best_move witPush
          ⟨true, false, 1 / 4, false, some ⟨sqE2, sqE4, none⟩, none, none, true⟩
          idleStart).state.board = idleStart.board) :=
  c8_apply_confirmation witPush
    ⟨true, false, 1 / 4, false, some ⟨sqE2, sqE4, none⟩, none, none, true⟩
    idleStart ⟨sqE2, sqE4, none⟩ rfl rfl rfl rfl

/-- Claim C9.  Placement-tag input is normalized by stripping surrounding
whitespace and lowercasing, and only the first two normalized characters are
inspected: a first character in `w`/`b` and a second naming a piece place
exactly that colored piece, trailing characters ignored. -/
theorem c9_placement_tag_normalization (st : GuiState) (sq : Square)
    (s : String) (c0 c1 : Char) (rest : List Char) (pt : PieceType)
    (hnorm : pyLower (pyStrip s.data) = c0 :: c1 :: rest)
    (hc0 : c0 = 'w' ∨ c0 = 'b')
    (hc1 : pieceTypeOfChar c1 = some pt) :
    right_click_place st sq (some s) =
      invalidateCache { st with board := st.board.set_piece_at sq (tagPiece c0 pt) } :=
  right_click_place_accepted st sq s c0 c1 rest pt hnorm hc0 hc1

/-- Witness for C9: the input `"WQ "` (uppercase with trailing space)
normalizes to `wq` and places a white queen. -/
theorem c9_placement_tag_normalization_witness :
    pyLower (pyStrip ("WQ " : String).data) = 'w' :: 'q' :: [] ∧
    right_click_place idleStart sqE4 (some "WQ ") =
      invalidateCache { idleStart with
        board := idleStart.board.set_piece_at sqE4 (tagPiece 'w' PieceType.queen) } :=
  ⟨by decide,
    c9_placement_tag_normalization idleStart sqE4 "WQ " 'w' 'q' [] PieceType.queen
      (by decide) (Or.inl rfl) rfl⟩

/-- Claim C10 counterexample.  The claim says every successful placement or
removal mutates the position.  Removing from an already-empty square is a
successful removal — the cached display is invalidated — yet the position is
byte-for-byte the position from before the call. -/
theorem c10_remove_empty_square_cex :
    (right_click_place
        { board := ⟨List.replicate 64 none, .white, "-", none, 0, 1⟩
          selected := none
          bestMoveInfo := some ⟨sqE2, sqE4, none⟩
          bestMoveLabel := "Best move: e4  (e2e4)"
          evalLabel := "Eval: 0.00" } sqE2 (some "remove")).board =
      (⟨List.replicate 64 none, .white, "-", none, 0, 1⟩ : Board) ∧
    (right_click_place
        { board := ⟨List.replicate 64 none, .white, "-", none, 0, 1⟩
          selected := none
          bestMoveInfo := some ⟨sqE2, sqE4, none⟩
          bestMoveLabel := "Best move: e4  (e2e4)"
          evalLabel := "Eval: 0.00" } sqE2 (some "remove")).bestMoveInfo = none := by
  constructor
  · decide
  · rfl

/-- Claim C10, amended.  A cancelled placement dialog (absent or empty input)
returns with no effect at all; a successful removal applies
`remove_piece_at` and a recognized tag applies `set_piece_at`, and both
invalidate the cached best-move/evaluation display — though the resulting
position may coincide with the prior one (removal from an empty square, or
placing a piece already there). -/
theorem c10_placement_frame_amended (st : GuiState) (sq : Square) (s : String)
    (c0 c1 : Char) (rest : List Char) (pt : PieceType)
    (hnorm : pyLower (pyStrip s.data) = c0 :: c1 :: rest)
    (hc0 : c0 = 'w' ∨ c0 = 'b')
    (hc1 : pieceTypeOfChar c1 = some pt) :
    right_click_place st sq none = st ∧
    right_click_place st sq (some "") = st ∧
    right_click_place st sq (some "remove") =
      invalidateCache { st with board := st.board.remove_piece_at sq } ∧
    right_click_place st sq (some s) =
      invalidateCache { st with board := st.board.set_piece_at sq (tagPiece c0 pt) } :=
  ⟨rfl, rfl, rfl, right_click_place_accepted st sq s c0 c1 rest pt hnorm hc0 hc1⟩

/-- Witness for C10 at the tag `bn` (black knight) over the initial state. -/
theorem c10_placement_frame_amended_witness :
    pyLower (pyStrip ("bn" : String).data) = 'b' :: 'n' :: [] ∧
    (right_click_place idleStart sqE4 none = idleStart ∧
      right_click_place idleStart sqE4 (some "") = idleStart ∧
      right_click_place idleStart sqE4 (some "remove") =
        invalidateCache { idleStart with
          board := idleStart.board.remove_piece_at sqE4 } ∧
      right_click_place idleStart sqE4 (some "bn") =
        invalidateCache { idleStart with
          board := idleStart.board.set_piece_at sqE4 (tagPiece 'b' PieceType.knight) }) :=
  ⟨by decide,
    c10_placement_frame_amended idleStart sqE4 "bn" 'b' 'n' [] PieceType.knight
      (by decide) (Or.inr rfl) rfl⟩

end ChessGui
